/-
  Verification of the per-frame control law of the ldoa_project repository
  (JetBot lane following with obstacle avoidance).

  The repository contains two variants of one per-frame callback `execute`:
  one in the road-following/collision notebook (threshold literal 0.4) and one
  in `final_demo.ipynb` (threshold literal 0.7).  Both read the steering model
  output `(x, y_raw)` and an obstacle probability, compute a PD steering value,
  clamp per-wheel motor commands to [0, 1], and stop when the probability
  exceeds the threshold.  The shutdown cell unsubscribes the camera, sleeps,
  and issues `robot.stop()`.

  We embed the arithmetic over ℝ.  `np.arctan2` is embedded by its standard
  piecewise definition in terms of `Real.arctan`.  Slider reads inside the
  callbacks are abstracted to fields of an explicit configuration record, as
  the spec's data model prescribes; the block threshold of each variant is a
  literal in the source, so the corresponding field is unused there.
-/
import Mathlib

open Real

/-- Per-frame observation: steering model output `(x, y_raw)` and the
    obstacle probability from the collision model. -/
structure FrameObservation where
  x : ℝ
  y_raw : ℝ
  blocked_prob : ℝ

/-- Controller configuration: the four slider-tuned gains of the notebooks
    plus the obstacle block threshold. -/
structure ControllerConfig where
  speed_gain : ℝ
  steering_gain : ℝ
  steering_kd : ℝ
  steering_bias : ℝ
  block_threshold : ℝ

/-- The single piece of carried state: the previous frame's steering angle
    (the `angle_last` global of the notebooks). -/
structure ControllerState where
  previous_angle : ℝ

/-- A pair of wheel motor power levels. -/
structure MotorCommand where
  left : ℝ
  right : ℝ

/-- `np.arctan2 a b` (note the NumPy argument order: `a` is the ordinate,
    `b` the abscissa), defined piecewise from `Real.arctan`. -/
noncomputable def arctan2 (a b : ℝ) : ℝ :=
  if 0 < b then Real.arctan (a / b)
  else if b < 0 then
    (if 0 ≤ a then Real.arctan (a / b) + Real.pi else Real.arctan (a / b) - Real.pi)
  else
    (if 0 < a then Real.pi / 2 else if a < 0 then -(Real.pi / 2) else 0)

/-- `max(min(v, 1.0), 0.0)` of the source: clamp to `[0, 1]`. -/
noncomputable def clamp01 (v : ℝ) : ℝ := max (min v 1.0) 0.0

/-- The forward-distance proxy `y = (0.5 - y_raw) / 2.0` computed by both
    `execute` variants. -/
noncomputable def forwardProxy (y_raw : ℝ) : ℝ := (0.5 - y_raw) / 2.0

/-- The steering angle `angle = np.arctan2(x, y)` computed by both `execute`
    variants from the raw model output. -/
noncomputable def angleOf (obs : FrameObservation) : ℝ :=
  arctan2 obs.x (forwardProxy obs.y_raw)

/-- The steering value `pid + steering_bias` of the source, where
    `pid = angle * steering_gain + (angle - angle_last) * steering_kd`. -/
noncomputable def steeringOf (obs : FrameObservation) (config : ControllerConfig)
    (state : ControllerState) : ℝ :=
  angleOf obs * config.steering_gain
    + (angleOf obs - state.previous_angle) * config.steering_kd
    + config.steering_bias

/-- The drive-law motor command of the source before the obstacle decision:
    `left = clamp(speed + steering)`, `right = clamp(speed - steering)`. -/
noncomputable def driveCommand (obs : FrameObservation) (config : ControllerConfig)
    (state : ControllerState) : MotorCommand :=
  ⟨clamp01 (config.speed_gain + steeringOf obs config state),
   clamp01 (config.speed_gain - steeringOf obs config state)⟩

/-- The per-frame control law common to both notebook variants, with the
    per-variant block-threshold literal generalised to the configuration
    field (each variant is proved below to be this function at its literal).
    Returns the emitted motor command and the updated controller state. -/
noncomputable def process (obs : FrameObservation) (config : ControllerConfig)
    (state : ControllerState) : MotorCommand × ControllerState :=
  if obs.blocked_prob > config.block_threshold then (⟨0.0, 0.0⟩, ⟨angleOf obs⟩)
  else (driveCommand obs config state, ⟨angleOf obs⟩)

/-- The `execute` callback of the road-following notebook (`src/unnamed/part_001`),
    arithmetic part: `prob_blocked` is compared against the literal `0.4`; the
    `block_threshold` configuration field is not consulted anywhere (the
    notebook has no threshold slider).  Widget display writes are I/O and
    dropped; `robot.stop()` is the command `(0.0, 0.0)`. -/
noncomputable def execute_part001 (obs : FrameObservation) (config : ControllerConfig)
    (state : ControllerState) : MotorCommand × ControllerState :=
  let x := obs.x
  let y := (0.5 - obs.y_raw) / 2.0
  let angle := arctan2 x y
  let pid := angle * config.steering_gain + (angle - state.previous_angle) * config.steering_kd
  let steering := pid + config.steering_bias
  let left_motor_value := max (min (config.speed_gain + steering) 1.0) 0.0
  let right_motor_value := max (min (config.speed_gain - steering) 1.0) 0.0
  if obs.blocked_prob > 0.4 then (⟨0.0, 0.0⟩, ⟨angle⟩)
  else (⟨left_motor_value, right_motor_value⟩, ⟨angle⟩)

/-- The `execute` callback of `final_demo.ipynb`, arithmetic part: identical
    to the other variant except that `prob_blocked` is compared against the
    literal `0.7`. -/
noncomputable def execute_final_demo (obs : FrameObservation) (config : ControllerConfig)
    (state : ControllerState) : MotorCommand × ControllerState :=
  let x := obs.x
  let y := (0.5 - obs.y_raw) / 2.0
  let angle := arctan2 x y
  let pid := angle * config.steering_gain + (angle - state.previous_angle) * config.steering_kd
  let steering := pid + config.steering_bias
  let left_motor_value := max (min (config.speed_gain + steering) 1.0) 0.0
  let right_motor_value := max (min (config.speed_gain - steering) 1.0) 0.0
  if obs.blocked_prob > 0.7 then (⟨0.0, 0.0⟩, ⟨angle⟩)
  else (⟨left_motor_value, right_motor_value⟩, ⟨angle⟩)

/-- One action of the shutdown cell of the road-following notebook. -/
inductive ShutdownAction where
  | unobserveCamera : ShutdownAction
  | sleepFor (seconds : ℚ) : ShutdownAction
  | robotStop : ShutdownAction
  deriving DecidableEq

/-- The motor command an action sends to the actuator, if any:
    `robot.stop()` sends `(0, 0)`. -/
def motorEffect : ShutdownAction → Option (ℚ × ℚ)
  | ShutdownAction.robotStop => some (0, 0)
  | _ => none

/-- The shutdown cell of the road-following notebook, in program order:
    `camera.unobserve(execute, ...)`, `time.sleep(0.1)`, `robot.stop()`. -/
def shutdownSequence : List ShutdownAction :=
  [ShutdownAction.unobserveCamera, ShutdownAction.sleepFor (1 / 10),
   ShutdownAction.robotStop]

/-- The road-following variant is the common control law `process` with the
    block threshold fixed at its literal `0.4`; the `block_threshold`
    configuration field is ignored. -/
theorem execute_part001_eq_process (obs : FrameObservation) (config : ControllerConfig)
    (state : ControllerState) :
    execute_part001 obs config state
      = process obs ⟨config.speed_gain, config.steering_gain, config.steering_kd,
          config.steering_bias, 0.4⟩ state := rfl

/-- The final-demo variant is the common control law `process` with the block
    threshold fixed at its literal `0.7`. -/
theorem execute_final_demo_eq_process (obs : FrameObservation) (config : ControllerConfig)
    (state : ControllerState) :
    execute_final_demo obs config state
      = process obs ⟨config.speed_gain, config.steering_gain, config.steering_kd,
          config.steering_bias, 0.7⟩ state := rfl

/-- C1: if `blocked_prob > block_threshold` then `process` emits exactly
    `MotorCommand(0.0, 0.0)`, discarding the computed drive values, for every
    observation, configuration and state; otherwise it emits the drive-law
    command. -/
theorem process_obstacle_override (obs : FrameObservation) (config : ControllerConfig)
    (state : ControllerState) :
    (obs.blocked_prob > config.block_threshold →
      (process obs config state).1 = ⟨0.0, 0.0⟩)
    ∧ (¬ obs.blocked_prob > config.block_threshold →
      (process obs config state).1 = driveCommand obs config state) := by
  constructor <;> intro h <;> simp [process, h]

/-- C1 witness: at `blocked_prob = 0.75 > 0.7 = block_threshold` the command
    is the full stop; at `blocked_prob = 0.2 ≤ 0.7` it is the drive command. -/
theorem process_obstacle_override_witness :
    ((process ⟨0.5, 0.3, 0.75⟩ ⟨0.28, 0.07, 0, 0, 0.7⟩ ⟨0⟩).1 = ⟨0.0, 0.0⟩)
    ∧ ((process ⟨0.5, 0.3, 0.2⟩ ⟨0.28, 0.07, 0, 0, 0.7⟩ ⟨0⟩).1
        = driveCommand ⟨0.5, 0.3, 0.2⟩ ⟨0.28, 0.07, 0, 0, 0.7⟩ ⟨0⟩) :=
  ⟨(process_obstacle_override _ _ _).1 (by show (0.75 : ℝ) > 0.7; norm_num),
   (process_obstacle_override _ _ _).2 (by show ¬ (0.2 : ℝ) > 0.7; norm_num)⟩

/-- C2: both components of the command returned by `process` lie in
    `[0.0, 1.0]` for every input. -/
theorem process_command_clamped (obs : FrameObservation) (config : ControllerConfig)
    (state : ControllerState) :
    0 ≤ (process obs config state).1.left ∧ (process obs config state).1.left ≤ 1
    ∧ 0 ≤ (process obs config state).1.right ∧ (process obs config state).1.right ≤ 1 := by
  unfold process
  split
  · norm_num
  · unfold driveCommand clamp01
    dsimp only
    norm_num [le_max_iff, max_le_iff, min_le_iff]

/-- C10: the two per-frame variants are the same control law: each equals the
    common `process` at its hard-coded threshold literal (0.4 for the
    road-following notebook, 0.7 for the final demo), so they compute
    identical commands and identical updated `previous_angle` whenever given
    the same block threshold; and their updated `previous_angle` coincides on
    every input unconditionally. -/
theorem variants_differ_only_in_threshold :
    (∀ (obs : FrameObservation) (config : ControllerConfig) (state : ControllerState),
      execute_part001 obs config state
        = process obs ⟨config.speed_gain, config.steering_gain, config.steering_kd,
            config.steering_bias, 0.4⟩ state)
    ∧ (∀ (obs : FrameObservation) (config : ControllerConfig) (state : ControllerState),
      execute_final_demo obs config state
        = process obs ⟨config.speed_gain, config.steering_gain, config.steering_kd,
            config.steering_bias, 0.7⟩ state)
    ∧ (∀ (obs : FrameObservation) (config : ControllerConfig) (state : ControllerState),
      (execute_part001 obs config state).2 = (execute_final_demo obs config state).2) := by
  refine ⟨fun _ _ _ => rfl, fun _ _ _ => rfl, fun obs config state => ?_⟩
  unfold execute_part001 execute_final_demo
  split <;> split <;> rfl

/-- C3: when the obstacle override does not fire, `process` emits
    `left = clamp(speed_gain + steering)` and `right = clamp(speed_gain - steering)`
    with `steering = angle * steering_gain + (angle - previous_angle) * steering_kd
    + steering_bias`. -/
theorem process_drive_law (obs : FrameObservation) (config : ControllerConfig)
    (state : ControllerState) :
    ¬ obs.blocked_prob > config.block_threshold →
    (process obs config state).1
      = ⟨clamp01 (config.speed_gain
            + (angleOf obs * config.steering_gain
               + (angleOf obs - state.previous_angle) * config.steering_kd
               + config.steering_bias)),
         clamp01 (config.speed_gain
            - (angleOf obs * config.steering_gain
               + (angleOf obs - state.previous_angle) * config.steering_kd
               + config.steering_bias))⟩ := by
  intro h
  simp [process, h, driveCommand, steeringOf]

/-- C3 witness: at `x = 0, y_raw = 0.3, blocked_prob = 0.2`, threshold `0.7`,
    `speed_gain = 0.5`, zero bias, the angle is `0`, the steering is `0`, and
    the command evaluates to `(0.5, 0.5)`. -/
theorem process_drive_law_witness :
    (process ⟨0, 0.3, 0.2⟩ ⟨0.5, 0.07, 0.3, 0, 0.7⟩ ⟨0⟩).1 = ⟨0.5, 0.5⟩ := by
  rw [process_drive_law _ _ _ (by show ¬ (0.2 : ℝ) > 0.7; norm_num)]
  norm_num [angleOf, forwardProxy, arctan2, clamp01, Real.arctan_zero, min_def, max_def]

/-- C4: the updated angle carried by `process` is
    `atan2(x, (0.5 - y_raw) / 2.0)`: the forward-distance proxy is
    `y = (0.5 - y_raw) / 2.0` and `x` enters unmodified. -/
theorem process_angle_formula (obs : FrameObservation) (config : ControllerConfig)
    (state : ControllerState) :
    (process obs config state).2.previous_angle
      = arctan2 obs.x ((0.5 - obs.y_raw) / 2.0) := by
  unfold process
  split <;> rfl

/-- C5: the returned state's `previous_angle` equals the angle computed in the
    same call, and when the override fires the full result is the stop command
    paired with that same updated angle. -/
theorem process_state_update (obs : FrameObservation) (config : ControllerConfig)
    (state : ControllerState) :
    ((process obs config state).2.previous_angle = angleOf obs)
    ∧ (obs.blocked_prob > config.block_threshold →
        process obs config state = (⟨0.0, 0.0⟩, ⟨angleOf obs⟩)) := by
  constructor
  · unfold process
    split <;> rfl
  · intro h
    simp [process, h]

/-- C5 witness: with `blocked_prob = 0.75 > 0.7` the override fires and the
    result is the stop command with `previous_angle` updated to the angle of
    this call. -/
theorem process_state_update_witness :
    process ⟨-0.8, 0.5, 0.75⟩ ⟨0.28, 0.07, 0, 0, 0.7⟩ ⟨0⟩
      = (⟨0.0, 0.0⟩, ⟨angleOf ⟨-0.8, 0.5, 0.75⟩⟩) :=
  (process_state_update _ _ _).2 (by show (0.75 : ℝ) > 0.7; norm_num)

/-- C6 counterexample: the source per-frame callback bakes its block
    threshold in.  With `blocked_prob = 0.5` fixed, moving the
    `block_threshold` configuration field from `0.45` to `0.55` (across
    `0.5`) leaves the road-following variant's command at the full stop,
    although the claim predicts the command changes; the per-call-threshold
    law `process` does change to the drive command `(0.5, 0.5)` there. -/
theorem execute_part001_threshold_baked_in :
    ((execute_part001 ⟨0, 0.3, 0.5⟩ ⟨0.5, 0.07, 0, 0, 0.45⟩ ⟨0⟩).1 = ⟨0.0, 0.0⟩)
    ∧ ((execute_part001 ⟨0, 0.3, 0.5⟩ ⟨0.5, 0.07, 0, 0, 0.55⟩ ⟨0⟩).1 = ⟨0.0, 0.0⟩)
    ∧ ((process ⟨0, 0.3, 0.5⟩ ⟨0.5, 0.07, 0, 0, 0.55⟩ ⟨0⟩).1 = ⟨0.5, 0.5⟩) := by
  refine ⟨?_, ?_, ?_⟩
  · norm_num [execute_part001]
  · norm_num [execute_part001]
  · norm_num [process, driveCommand, steeringOf, angleOf, forwardProxy, arctan2,
      clamp01, Real.arctan_zero, min_def, max_def]

/-- C6 (amended): each source variant hard-codes its threshold, but in the
    common law `process` the threshold is consumed from the configuration on
    each call: for a fixed `blocked_prob`, a threshold below it yields the
    full stop and moving the threshold to or above it yields the drive
    command instead. -/
theorem process_threshold_tunable (obs : FrameObservation) (config : ControllerConfig)
    (state : ControllerState) (t : ℝ)
    (h1 : obs.blocked_prob > config.block_threshold)
    (h2 : ¬ obs.blocked_prob > t) :
    ((process obs config state).1 = ⟨0.0, 0.0⟩)
    ∧ ((process obs ⟨config.speed_gain, config.steering_gain, config.steering_kd,
          config.steering_bias, t⟩ state).1 = driveCommand obs config state) := by
  constructor
  · simp [process, h1]
  · show (process obs ⟨config.speed_gain, config.steering_gain, config.steering_kd,
      config.steering_bias, t⟩ state).1 = driveCommand obs ⟨config.speed_gain,
      config.steering_gain, config.steering_kd, config.steering_bias, t⟩ state
    simp [process, h2]

/-- C6 witness: `blocked_prob = 0.5`, threshold `0.4` stops; threshold moved
    to `0.7` drives. -/
theorem process_threshold_tunable_witness :
    ((process ⟨0, 0.3, 0.5⟩ ⟨0.5, 0.07, 0, 0, 0.4⟩ ⟨0⟩).1 = ⟨0.0, 0.0⟩)
    ∧ ((process ⟨0, 0.3, 0.5⟩ ⟨0.5, 0.07, 0, 0, 0.7⟩ ⟨0⟩).1
        = driveCommand ⟨0, 0.3, 0.5⟩ ⟨0.5, 0.07, 0, 0, 0.4⟩ ⟨0⟩) :=
  process_threshold_tunable ⟨0, 0.3, 0.5⟩ ⟨0.5, 0.07, 0, 0, 0.4⟩ ⟨0⟩ 0.7
    (by show (0.5 : ℝ) > 0.4; norm_num) (by show ¬ (0.5 : ℝ) > 0.7; norm_num)

/-- C7: the angle computation is total at `y = 0`: `atan2(x, 0)` is `π/2`,
    `-π/2` or `0` by the sign of `x` (no division is performed), and on the
    input `x = -0.8, y_raw = 0.5` (so `y = 0`) the angle `process` computes
    is `atan2(-0.8, 0) = -π/2`. -/
theorem arctan2_total_at_zero :
    (∀ x : ℝ, arctan2 x 0
        = if 0 < x then Real.pi / 2 else if x < 0 then -(Real.pi / 2) else 0)
    ∧ ((process ⟨-0.8, 0.5, 0⟩ ⟨0.28, 0.07, 0, 0, 0.7⟩ ⟨0⟩).2.previous_angle
        = -(Real.pi / 2)) := by
  constructor
  · intro x
    unfold arctan2
    norm_num
  · norm_num [process, angleOf, forwardProxy, arctan2]

/-- C8: for `y > 0` the computed angle `atan2(x, y)` has the sign of `x`:
    zero at `x = 0`, positive for `x > 0`, negative for `x < 0`. -/
theorem arctan2_sign_matches_x (x y : ℝ) (hy : 0 < y) :
    (0 < x → 0 < arctan2 x y)
    ∧ (x = 0 → arctan2 x y = 0)
    ∧ (x < 0 → arctan2 x y < 0) := by
  have h : arctan2 x y = Real.arctan (x / y) := by
    unfold arctan2
    rw [if_pos hy]
  refine ⟨fun hx => ?_, fun hx => ?_, fun hx => ?_⟩
  · rw [h]
    calc (0 : ℝ) = Real.arctan 0 := Real.arctan_zero.symm
    _ < Real.arctan (x / y) := Real.arctan_strictMono (div_pos hx hy)
  · rw [h, hx, zero_div, Real.arctan_zero]
  · rw [h]
    calc Real.arctan (x / y) < Real.arctan 0 :=
      Real.arctan_strictMono (div_neg_of_neg_of_pos hx hy)
    _ = 0 := Real.arctan_zero

/-- C8 witness: at `y = 1`: `atan2(1, 1) > 0`, `atan2(0, 1) = 0`,
    `atan2(-1, 1) < 0`. -/
theorem arctan2_sign_matches_x_witness :
    0 < arctan2 1 1 ∧ arctan2 0 1 = 0 ∧ arctan2 (-1) 1 < 0 :=
  ⟨(arctan2_sign_matches_x 1 1 one_pos).1 one_pos,
   (arctan2_sign_matches_x 0 1 one_pos).2.1 rfl,
   (arctan2_sign_matches_x (-1) 1 one_pos).2.2 (by norm_num)⟩

/-- C9: the shutdown cell is a straight-line sequence whose first action
    unsubscribes the camera, whose last action is `robot.stop()`, and whose
    only motor command is the full stop `(0, 0)` — so the last command ever
    sent to the motors after shutdown is the full stop. -/
theorem shutdown_final_stop :
    shutdownSequence.head? = some ShutdownAction.unobserveCamera
    ∧ shutdownSequence.getLast? = some ShutdownAction.robotStop
    ∧ shutdownSequence.filterMap motorEffect = [(0, 0)] :=
  ⟨rfl, rfl, rfl⟩
